import Mathlib

/-
Verification of the reaction-to-pin resolution pipeline of matrix-pinbot
(src/pinbot/callbacks.py) against its natural-language specification.

The pipeline is shallowly embedded: each handler of the `Callbacks` class
becomes a pure Lean function from the bot state, the configuration, the
incoming data and the responses of the external messaging collaborator
(fetch result, send result, join results) to an explicit outcome recording
the observable effects (whether a fetch was attempted, the messages sent,
the new bot state).  Machine-level concerns (asyncio scheduling, logging)
carry no decision logic and are dropped; every branch of the Python source
is mirrored one-to-one.
-/

set_option maxRecDepth 8192

namespace Pinbot

/-- Configuration constants consumed by the callbacks: the archive room id
    (`config.pins_room`) and the bot identity (`config.user_id`). -/
structure Config where
  pins_room : String
  user_id : String
deriving DecidableEq, Repr

/-- Mutable bot state owned by `Callbacks.__init__`: the sync-gate flag
    `self.synced` (initially false) and the dedup ledger `self.pinned`
    (a set of event ids, modelled as a duplicate-free list). -/
structure BotState where
  synced : Bool
  pinned : List String
deriving DecidableEq, Repr

/-- The nested relation dictionary `content["m.relates_to"]` of a reaction
    event source; each key may be absent. -/
structure RelatesTo where
  event_id : Option String
  rel_type : Option String
  key : Option String
deriving DecidableEq, Repr

/-- The `content` dictionary of an event source; the relation entry may be
    absent. -/
structure Content where
  relates_to : Option RelatesTo
deriving DecidableEq, Repr

/-- The raw event passed to `Callbacks.unknown` / `Callbacks._reaction`:
    its declared type string, its sender, and its (possibly absent)
    `content` dictionary. -/
structure EventSource where
  etype : String
  sender : String
  content : Option Content
deriving DecidableEq, Repr

/-- The empty dictionary default used by the chained lookups. -/
def emptyRelation : RelatesTo := ⟨none, none, none⟩

/-- Mirrors the chained total lookup
    `event.source.get("content", \x7b\x7d).get("m.relates_to", \x7b\x7d)`
    at lines 107-109 and 202 of callbacks.py: an absent `content` or an
    absent `m.relates_to` both yield the empty dictionary. -/
def getRelation (e : EventSource) : RelatesTo :=
  match e.content with
  | none => emptyRelation
  | some c => c.relates_to.getD emptyRelation

/-- The original event fetched via `room_get_event`: sender, plain body and
    optional rich body. -/
structure OrigEvent where
  sender : String
  body : String
  formatted_body : Option String
deriving DecidableEq, Repr

/-- Result of `client.room_get_event` as consumed at lines 91-102 of
    callbacks.py: a `RoomGetEventError`, a still-encrypted `MegolmEvent`,
    or the decrypted original event. -/
inductive FetchResult where
  | err : FetchResult
  | megolm : FetchResult
  | ok : OrigEvent → FetchResult
deriving DecidableEq, Repr

/-- The pin-glyph string literal of callbacks.py line 111, byte-for-byte:
    the source file stores the four characters U+00F0 U+0178 U+201C U+0152
    (the UTF-8 bytes of U+1F4CC decoded as Latin-1), not the pushpin
    emoji itself. -/
def pinGlyph : String := "ðŸ“Œ"

/-- The actual pushpin emoji U+1F4CC that a Matrix client sends when a
    user reacts with 📌. -/
def realPinEmoji : String := String.mk [Char.ofNat 0x1F4CC]

/-- Modelled from the spec: `make_pill` lives in pinbot/chat_functions.py,
    which is not part of the provided sources.  Section 4.5 of the spec
    describes it as an identifier pill for the original sender, linking to
    the sender in the protocol\x27s canonical deep-link form. -/
def make_pill (user_id : String) : String :=
  "<a href=\"https://matrix.to/#/" ++ user_id ++ "\">" ++ user_id ++ "</a>"

/-- Mirrors Python string indexing `s[0]` as used at line 127 of
    callbacks.py: the one-character string at index 0.  (Python raises
    IndexError on an empty string; the callers here always pass a nonempty
    Matrix user id, and the empty case is mapped to the empty string.) -/
def headChar (s : String) : String :=
  match s.data with
  | [] => ""
  | c :: _ => String.mk [c]

/-- Mirrors line 124 of callbacks.py:
    `fallback_body = reacted_to_event.body.join(st)` where st is the
    three-character string of a newline, a greater-than sign and a space.
    Python `sep.join(iterable)` iterates the characters of that string and
    places `sep` (here the whole original body) between them. -/
def fallback_body (b : String) : String :=
  String.intercalate b (("\n> ".data).map (fun c => String.mk [c]))

/-- Mirrors the plain-text body f-string at lines 125-131 of callbacks.py:
    a newline, the quote marker, the FIRST CHARACTER of the original
    sender, a space, the fallback body, and the Pinned marker. -/
def compose_body (orig : OrigEvent) : String :=
  "\n> " ++ headChar orig.sender ++ " " ++ fallback_body orig.body ++ "\n\nPinned\n"

/-- Mirrors line 135 of callbacks.py: the rich body if present, else the
    plain body. -/
def quote_body (orig : OrigEvent) : String :=
  match orig.formatted_body with
  | some f => f
  | none => orig.body

/-- Mirrors the formatted-body f-string at lines 136-148 of callbacks.py,
    whitespace included.  No interpolated value is escaped. -/
def compose_formatted (orig : OrigEvent) (room_slug event_slug : String) : String :=
  "\n<mx-reply>\n  <blockquote>\n    <a href=\"https://matrix.to/#/"
    ++ room_slug ++ "/" ++ event_slug
    ++ "\">Pinned</a>\n    " ++ make_pill orig.sender
    ++ "\n    <br />\n    <!-- This is where the related event\x27s HTML would be. -->\n    "
    ++ quote_body orig
    ++ "\n  </blockquote>\n</mx-reply>\n"

/-- One message passed to `client.room_send` (lines 151-159): target room,
    event type, and the content fields. -/
structure SendMsg where
  room : String
  etype : String
  msgtype : String
  body : String
  format : String
  formatted_body : String
deriving DecidableEq, Repr

/-- Python `set.add` on the dedup ledger (line 160), on the list model of
    the set: a no-op when the element is already present. -/
def ledgerAdd (id : String) (l : List String) : List String :=
  if id ∈ l then l else id :: l

/-- Observable outcome of one `_reaction` / `unknown` invocation: whether
    `room_get_event` was called, the messages sent via `room_send` in
    order, and the bot state after the call. -/
structure ReactionResult where
  fetched : Bool
  sends : List SendMsg
  state : BotState
deriving DecidableEq, Repr

/-- Shallow embedding of `Callbacks._reaction` (callbacks.py lines 68-160).
    `fetch` is the collaborator\x27s response to the `room_get_event` call
    (consumed only if that call is reached) and `sendOk` the success of the
    `room_send` call; the source never inspects the send result, so
    `sendOk` is unused, exactly as in the code. -/
def reaction (cfg : Config) (st : BotState) (room_id : String)
    (ev : EventSource) (reacted_to_id : String)
    (fetch : FetchResult) (sendOk : Bool) : ReactionResult :=
  -- line 81: if not self.synced: return
  if st.synced = false then ⟨false, [], st⟩
  -- line 87: if room.room_id == self.config.pins_room: return
  else if room_id = cfg.pins_room then ⟨false, [], st⟩
  else
    -- line 91: event_response = await self.client.room_get_event(...)
    match fetch with
    | .err => ⟨true, [], st⟩          -- lines 92-96
    | .megolm => ⟨true, [], st⟩       -- lines 98-102
    | .ok orig =>
      -- line 105: if reacted_to_event.sender == self.config.user_id: return
      if orig.sender = cfg.user_id then ⟨true, [], st⟩
      -- lines 107-112: reaction_emoji lookup and comparison to the glyph
      else if (getRelation ev).key ≠ some pinGlyph then ⟨true, [], st⟩
      -- lines 114-118: if reacted_to_id in self.pinned: return
      else if reacted_to_id ∈ st.pinned then ⟨true, [], st⟩
      else
        -- lines 151-160: room_send then unconditional self.pinned.add
        ⟨true,
         [⟨cfg.pins_room, "m.room.message", "m.text", compose_body orig,
           "org.matrix.custom.html", compose_formatted orig room_id reacted_to_id⟩],
         ⟨st.synced, ledgerAdd reacted_to_id st.pinned⟩⟩

/-- Python truthiness of `relation_dict.get("event_id")` at line 205:
    absent or empty string is falsy. -/
def truthyId (o : Option String) : Bool :=
  match o with
  | none => false
  | some s => s ≠ ""

/-- Shallow embedding of `Callbacks.unknown` (callbacks.py lines 190-211):
    dispatches reaction-typed events with a truthy `event_id` and relation
    type `m.annotation` to `_reaction`, and drops everything else. -/
def unknown (cfg : Config) (st : BotState) (room_id : String)
    (ev : EventSource) (fetch : FetchResult) (sendOk : Bool) : ReactionResult :=
  if ev.etype = "m.reaction" then
    let relation_dict := getRelation ev
    if truthyId relation_dict.event_id ∧ relation_dict.rel_type = some "m.annotation" then
      reaction cfg st room_id ev (relation_dict.event_id.getD "") fetch sendOk
    else ⟨false, [], st⟩
  else ⟨false, [], st⟩

/-- Shallow embedding of `Callbacks.sync` (callbacks.py lines 213-215):
    sets the sync-gate flag, touches nothing else. -/
def sync (st : BotState) : BotState := ⟨true, st.pinned⟩

/-- Observable outcome of one `Callbacks.invite` invocation: how many
    `client.join` calls were made, how many `asyncio.sleep(1)` pauses
    were taken, and whether a join succeeded. -/
structure InviteResult where
  joins : Nat
  sleeps : Nat
  joined : Bool
deriving DecidableEq, Repr

/-- The body of the `for attempt in range(3)` loop of `Callbacks.invite`
    (callbacks.py lines 51-61), over the remaining attempt indices:
    each iteration calls `join`; on `JoinError` it sleeps one second and
    continues, otherwise it breaks out of the loop. -/
def inviteAux (joinOk : Nat → Bool) : List Nat → InviteResult
  | [] => ⟨0, 0, false⟩
  | a :: rest =>
      if joinOk a then ⟨1, 0, true⟩
      else
        let r := inviteAux joinOk rest
        ⟨r.joins + 1, r.sleeps + 1, r.joined⟩

/-- Shallow embedding of `Callbacks.invite` (callbacks.py lines 40-66):
    the retry loop over attempts 0, 1, 2, where `joinOk i` tells whether
    the collaborator\x27s `join` call succeeds on attempt `i`. -/
def invite (joinOk : Nat → Bool) : InviteResult :=
  inviteAux joinOk [0, 1, 2]

/-- Outcome classification of one resolver invocation, as the spec
    describes it. -/
inductive Resolution where
  | ignoredSyncGate : Resolution
  | ignoredArchiveRoom : Resolution
  | failedFetch : Resolution
  | failedDecrypt : Resolution
  | ignoredSelf : Resolution
  | ignoredEmoji : Resolution
  | ignoredDuplicate : Resolution
  | archived : Resolution
deriving DecidableEq, Repr

/-- Modelled from the amended claim C4: the check order the code actually
    implements.  The sync gate and the archive-room check precede the
    fetch; the fetch-error, decryption and self-author checks follow the
    fetch; the emoji check and the dedup check come last, in that order,
    each short-circuiting the rest. -/
def resolveSpec (cfg : Config) (st : BotState) (room_id : String)
    (ev : EventSource) (reacted_to_id : String) (fetch : FetchResult) : Resolution :=
  if st.synced = false then .ignoredSyncGate
  else if room_id = cfg.pins_room then .ignoredArchiveRoom
  else
    match fetch with
    | .err => .failedFetch
    | .megolm => .failedDecrypt
    | .ok orig =>
      if orig.sender = cfg.user_id then .ignoredSelf
      else if (getRelation ev).key ≠ some pinGlyph then .ignoredEmoji
      else if reacted_to_id ∈ st.pinned then .ignoredDuplicate
      else .archived

/-- Executable substring test: `isPrefixL n h` holds when the character
    list `n` is an initial segment of `h`. -/
def isPrefixL : List Char → List Char → Bool
  | [], _ => true
  | _ :: _, [] => false
  | a :: as, b :: bs => a == b && isPrefixL as bs

/-- Executable substring test over character lists. -/
def occursIn (needle : List Char) : List Char → Bool
  | [] => isPrefixL needle []
  | c :: t => isPrefixL needle (c :: t) || occursIn needle t

/-- Whether `needle` occurs as a contiguous substring of `hay`. -/
def containsStr (hay needle : String) : Bool :=
  occursIn needle.data hay.data

/-- A malformed reaction event source, as listed in claim C9: absent
    content, absent relation structure, absent or empty target event id,
    absent relation kind, or absent emoji key. -/
def malformed (ev : EventSource) : Bool :=
  ev.content.isNone
    || (match ev.content with
        | none => true
        | some c => c.relates_to.isNone)
    || (getRelation ev).event_id.isNone
    || ((getRelation ev).event_id == some "")
    || (getRelation ev).rel_type.isNone
    || (getRelation ev).key.isNone

/-- Sample configuration used by the concrete evaluations. -/
def sampleCfg : Config := ⟨"!pins:server", "@pinbot:server"⟩

/-- A well-formed pin-reaction event source with the glyph the source
    compares against. -/
def samplePinEv : EventSource :=
  ⟨"m.reaction", "@u1:server",
   some ⟨some ⟨some "$e1", some "m.annotation", some pinGlyph⟩⟩⟩

/-- A reaction event source carrying the genuine pushpin emoji U+1F4CC. -/
def realPinEv : EventSource :=
  ⟨"m.reaction", "@u1:server",
   some ⟨some ⟨some "$e1", some "m.annotation", some realPinEmoji⟩⟩⟩

/-- A sample original message. -/
def sampleOrig : OrigEvent := ⟨"@u1:server", "hello", none⟩

/-- A reaction event source whose emoji is not the pin glyph. -/
def nonPinEv : EventSource :=
  ⟨"m.reaction", "@u1:server",
   some ⟨some ⟨some "$e1", some "m.annotation", some "x"⟩⟩⟩

/-- A reaction-shaped event source with no content dictionary at all. -/
def malformedEv : EventSource := ⟨"m.reaction", "@u1:server", none⟩

/-- C1: a pin reaction with the genuine pushpin emoji U+1F4CC to an event
    by a non-bot user in a non-archive room, after sync-complete and with
    an empty dedup ledger, produces NO archive send and leaves the ledger
    empty: the emoji comparison at callbacks.py line 111 is against the
    mojibake string, which differs from the real emoji, so the reaction is
    dropped at the emoji check (after the fetch). -/
theorem C1_real_pin_not_archived :
    reaction sampleCfg ⟨true, []⟩ "!r3:server" realPinEv "$e1" (.ok sampleOrig) true
      = ⟨true, [], ⟨true, []⟩⟩ ∧ realPinEmoji ≠ pinGlyph := by
  decide

/-- C2: the plain-text record for the two-line body of a line a and a
    line b is NOT a per-line quoted rendering: line 124 of callbacks.py
    calls join with the arguments reversed, so the composed record is the
    quote marker, the first sender character, then newline-body-gt-body-
    space, and the interior line b never receives a quote-marker prefix. -/
theorem C2_quote_marker_dropped :
    fallback_body "a\nb" = "\na\nb>a\nb " ∧
    compose_body ⟨"@u1:server", "a\nb", none⟩ = "\n> @ \na\nb>a\nb \n\nPinned\n" ∧
    containsStr (compose_body ⟨"@u1:server", "a\nb", none⟩) "> b" = false := by
  decide

/-- C6: the formatted HTML composed for a plain body containing markup is
    embedded verbatim, with no escaping: the output contains the raw
    markup of the body and no entity-escaped form. -/
theorem C6_html_unescaped :
    containsStr
      (compose_formatted ⟨"@mallory:server", "<b>x</b>", none⟩ "!r3:server" "$e1")
      "<b>x</b>" = true ∧
    containsStr
      (compose_formatted ⟨"@mallory:server", "<b>x</b>", none⟩ "!r3:server" "$e1")
      "&lt;" = false := by
  decide

/-- C7 counterexample: when all three join attempts fail, the loop takes
    three one-second pauses, not at most two: callbacks.py line 59 sleeps
    after every failed attempt, including the last. -/
theorem C7_three_sleeps_on_total_failure :
    invite (fun _ => false) = ⟨3, 3, false⟩ ∧
    ¬ (invite (fun _ => false)).sleeps ≤ 2 := by
  decide

/-- C7 amended: the invite handler calls join at most 3 times, a success
    ends the loop immediately with no further pause, and one one-second
    pause follows every failed attempt including the final one, so the
    loop blocks for at most 3 seconds; in the fails-twice-then-succeeds
    scenario exactly 2 pauses occur and the bot ends up joined. -/
theorem C7_join_retry_characterization :
    (∀ joinOk : Nat → Bool,
      invite joinOk =
        if joinOk 0 then ⟨1, 0, true⟩
        else if joinOk 1 then ⟨2, 1, true⟩
        else if joinOk 2 then ⟨3, 2, true⟩
        else ⟨3, 3, false⟩) ∧
    invite (fun i => i == 2) = ⟨3, 2, true⟩ := by
  constructor
  · intro joinOk
    cases h0 : joinOk 0 <;> cases h1 : joinOk 1 <;> cases h2 : joinOk 2 <;>
      simp [invite, inviteAux, h0, h1, h2]
  · decide

/-- C4 counterexample: a reaction whose emoji is not the pin glyph and
    whose target is already in the dedup ledger still triggers a fetch of
    the original event: the fetch at callbacks.py line 91 precedes the
    emoji check at line 111 and the ledger check at line 114. -/
theorem C4_fetch_despite_nonpin_and_duplicate :
    (reaction sampleCfg ⟨true, ["$e1"]⟩ "!r3:server" nonPinEv "$e1"
      (.ok sampleOrig) true).fetched = true := by
  decide

/-- Adding an element makes it a member of the ledger. -/
theorem mem_ledgerAdd_self (id : String) (l : List String) : id ∈ ledgerAdd id l := by
  by_cases h : id ∈ l <;> simp [ledgerAdd, h]

/-- A reaction whose target is already in the dedup ledger sends nothing. -/
theorem reaction_sends_empty_of_mem (cfg : Config) (st : BotState) (room_id : String)
    (ev : EventSource) (id : String) (fetch : FetchResult) (sendOk : Bool)
    (h : id ∈ st.pinned) :
    (reaction cfg st room_id ev id fetch sendOk).sends = [] := by
  by_cases hs : st.synced = false
  · simp [reaction, hs]
  by_cases hr : room_id = cfg.pins_room
  · simp [reaction, hs, hr]
  cases fetch with
  | err => simp [reaction, hs, hr]
  | megolm => simp [reaction, hs, hr]
  | ok orig =>
    by_cases hself : orig.sender = cfg.user_id
    · simp [reaction, hs, hr, hself]
    by_cases hk : (getRelation ev).key ≠ some pinGlyph
    · simp [reaction, hs, hr, hself, hk]
    · simp [reaction, hs, hr, hself, hk, h]

/-- A reaction whose emoji key is not the glyph constant sends nothing and
    leaves the state untouched. -/
theorem reaction_nonpin (cfg : Config) (st : BotState) (room_id : String)
    (ev : EventSource) (id : String) (fetch : FetchResult) (sendOk : Bool)
    (hk : (getRelation ev).key ≠ some pinGlyph) :
    (reaction cfg st room_id ev id fetch sendOk).sends = [] ∧
    (reaction cfg st room_id ev id fetch sendOk).state = st := by
  by_cases hs : st.synced = false
  · simp [reaction, hs]
  by_cases hr : room_id = cfg.pins_room
  · simp [reaction, hs, hr]
  cases fetch with
  | err => simp [reaction, hs, hr]
  | megolm => simp [reaction, hs, hr]
  | ok orig =>
    by_cases hself : orig.sender = cfg.user_id
    · simp [reaction, hs, hr, hself]
    · simp [reaction, hs, hr, hself, hk]

/-- Any reaction invocation either leaves the ledger untouched or adds
    exactly the target id, and never changes the sync flag. -/
theorem reaction_state_frame (cfg : Config) (st : BotState) (room_id : String)
    (ev : EventSource) (id : String) (fetch : FetchResult) (sendOk : Bool) :
    ((reaction cfg st room_id ev id fetch sendOk).state.pinned = st.pinned ∨
     (reaction cfg st room_id ev id fetch sendOk).state.pinned = ledgerAdd id st.pinned) ∧
    (reaction cfg st room_id ev id fetch sendOk).state.synced = st.synced := by
  by_cases hs : st.synced = false
  · simp [reaction, hs]
  by_cases hr : room_id = cfg.pins_room
  · simp [reaction, hs, hr]
  cases fetch with
  | err => simp [reaction, hs, hr]
  | megolm => simp [reaction, hs, hr]
  | ok orig =>
    by_cases hself : orig.sender = cfg.user_id
    · simp [reaction, hs, hr, hself]
    by_cases hk : (getRelation ev).key ≠ some pinGlyph
    · simp [reaction, hs, hr, hself, hk]
    by_cases hd : id ∈ st.pinned
    · simp [reaction, hs, hr, hself, hk, hd]
    · simp [reaction, hs, hr, hself, hk, hd]

/-- C3 counterexample: a pin whose archive send FAILS (send result false)
    still performs the ledger insertion: callbacks.py line 160 adds the
    id unconditionally, without inspecting the result of the room_send
    call at line 151. -/
theorem C3_failed_send_still_marked :
    (reaction sampleCfg ⟨true, []⟩ "!r3:server" samplePinEv "$e1"
      (.ok sampleOrig) false).sends.length = 1 ∧
    "$e1" ∈ (reaction sampleCfg ⟨true, []⟩ "!r3:server" samplePinEv "$e1"
      (.ok sampleOrig) false).state.pinned := by
  decide

/-- C3 amended: the target id ends up in the dedup ledger exactly when it
    was already there or a send to the archive room was ATTEMPTED in this
    invocation, regardless of whether the send succeeded: the insertion
    follows the send call unconditionally. -/
theorem C3_ledger_iff_send_attempt (cfg : Config) (st : BotState) (room_id : String)
    (ev : EventSource) (id : String) (fetch : FetchResult) (sendOk : Bool) :
    id ∈ (reaction cfg st room_id ev id fetch sendOk).state.pinned ↔
      (id ∈ st.pinned ∨ (reaction cfg st room_id ev id fetch sendOk).sends ≠ []) := by
  by_cases hs : st.synced = false
  · simp [reaction, hs]
  by_cases hr : room_id = cfg.pins_room
  · simp [reaction, hs, hr]
  cases fetch with
  | err => simp [reaction, hs, hr]
  | megolm => simp [reaction, hs, hr]
  | ok orig =>
    by_cases hself : orig.sender = cfg.user_id
    · simp [reaction, hs, hr, hself]
    by_cases hk : (getRelation ev).key ≠ some pinGlyph
    · simp [reaction, hs, hr, hself, hk]
    by_cases hd : id ∈ st.pinned
    · simp [reaction, hs, hr, hself, hk, hd]
    · simp [reaction, hs, hr, hself, hk, hd, ledgerAdd]

/-- C4 amended: the resolver checks the sync gate first and the archive
    room second, both before the fetch; the fetch-error, decryption and
    self-author checks follow the fetch; the emoji check and then the
    dedup check come last, each short-circuiting the rest.  `resolveSpec`
    states that order; the reaction handler sends exactly when it
    classifies the reaction as archived, and fetches exactly when the
    first two gates pass. -/
theorem C4_resolver_check_order (cfg : Config) (st : BotState) (room_id : String)
    (ev : EventSource) (id : String) (fetch : FetchResult) (sendOk : Bool) :
    ((reaction cfg st room_id ev id fetch sendOk).sends ≠ [] ↔
      resolveSpec cfg st room_id ev id fetch = .archived) ∧
    ((reaction cfg st room_id ev id fetch sendOk).fetched = true ↔
      (resolveSpec cfg st room_id ev id fetch ≠ .ignoredSyncGate ∧
       resolveSpec cfg st room_id ev id fetch ≠ .ignoredArchiveRoom)) := by
  by_cases hs : st.synced = false
  · simp [reaction, resolveSpec, hs]
  by_cases hr : room_id = cfg.pins_room
  · simp [reaction, resolveSpec, hs, hr]
  cases fetch with
  | err => simp [reaction, resolveSpec, hs, hr]
  | megolm => simp [reaction, resolveSpec, hs, hr]
  | ok orig =>
    by_cases hself : orig.sender = cfg.user_id
    · simp [reaction, resolveSpec, hs, hr, hself]
    by_cases hk : (getRelation ev).key ≠ some pinGlyph
    · simp [reaction, resolveSpec, hs, hr, hself, hk]
    by_cases hd : id ∈ st.pinned
    · simp [reaction, resolveSpec, hs, hr, hself, hk, hd]
    · simp [reaction, resolveSpec, hs, hr, hself, hk, hd]

/-- C5: two sequential pin-glyph reactions to the same target, both after
    sync-complete, where the first passes every gate, produce exactly one
    archive send: the first invocation sends one message and records the
    id, the second finds the id in the dedup ledger and sends nothing. -/
theorem C5_second_pin_sends_nothing (cfg : Config) (st : BotState)
    (r1 r2 : String) (e1 e2 : EventSource) (id : String) (orig : OrigEvent)
    (f2 : FetchResult) (s1 s2 : Bool)
    (hsync : st.synced = true) (hroom : r1 ≠ cfg.pins_room)
    (hself : orig.sender ≠ cfg.user_id)
    (hk1 : (getRelation e1).key = some pinGlyph)
    (hk2 : (getRelation e2).key = some pinGlyph)
    (hnew : id ∉ st.pinned) :
    (reaction cfg st r1 e1 id (.ok orig) s1).sends.length = 1 ∧
    id ∈ (reaction cfg st r1 e1 id (.ok orig) s1).state.pinned ∧
    (reaction cfg ((reaction cfg st r1 e1 id (.ok orig) s1).state)
      r2 e2 id f2 s2).sends = [] := by
  have h1 : reaction cfg st r1 e1 id (.ok orig) s1 =
      ⟨true,
       [⟨cfg.pins_room, "m.room.message", "m.text", compose_body orig,
         "org.matrix.custom.html", compose_formatted orig r1 id⟩],
       ⟨st.synced, ledgerAdd id st.pinned⟩⟩ := by
    simp [reaction, hsync, hroom, hself, hk1, hnew]
  refine ⟨?_, ?_, ?_⟩
  · rw [h1]
    rfl
  · rw [h1]
    exact mem_ledgerAdd_self id st.pinned
  · apply reaction_sends_empty_of_mem
    rw [h1]
    exact mem_ledgerAdd_self id st.pinned

/-- C5 witness: the hypotheses and the conclusion at a concrete pin pair. -/
theorem C5_second_pin_sends_nothing_check :
    (⟨true, []⟩ : BotState).synced = true ∧
    "!r3:server" ≠ sampleCfg.pins_room ∧
    sampleOrig.sender ≠ sampleCfg.user_id ∧
    (getRelation samplePinEv).key = some pinGlyph ∧
    "$e1" ∉ (⟨true, []⟩ : BotState).pinned ∧
    ((reaction sampleCfg ⟨true, []⟩ "!r3:server" samplePinEv "$e1"
        (.ok sampleOrig) true).sends.length = 1 ∧
     "$e1" ∈ (reaction sampleCfg ⟨true, []⟩ "!r3:server" samplePinEv "$e1"
        (.ok sampleOrig) true).state.pinned ∧
     (reaction sampleCfg ((reaction sampleCfg ⟨true, []⟩ "!r3:server" samplePinEv "$e1"
        (.ok sampleOrig) true).state) "!r3:server" samplePinEv "$e1"
        (.ok sampleOrig) true).sends = []) :=
  ⟨rfl, by decide, by decide, by decide, by decide,
   C5_second_pin_sends_nothing sampleCfg ⟨true, []⟩ "!r3:server" "!r3:server"
     samplePinEv samplePinEv "$e1" sampleOrig (.ok sampleOrig) true true
     rfl (by decide) (by decide) (by decide) (by decide) (by decide)⟩

/-- C8: while the sync-gate flag is false, a reaction invocation performs
    no fetch, sends nothing, and returns the state completely unchanged;
    nothing is queued anywhere (the outcome carries every observable
    effect of the call). -/
theorem C8_presync_dropped (cfg : Config) (st : BotState) (room_id : String)
    (ev : EventSource) (id : String) (fetch : FetchResult) (sendOk : Bool)
    (h : st.synced = false) :
    reaction cfg st room_id ev id fetch sendOk = ⟨false, [], st⟩ := by
  simp [reaction, h]

/-- C8 witness: the hypothesis and the conclusion at a concrete pre-sync
    pin reaction carrying the genuine pushpin emoji. -/
theorem C8_presync_dropped_check :
    (⟨false, ["$old"]⟩ : BotState).synced = false ∧
    reaction sampleCfg ⟨false, ["$old"]⟩ "!r3:server" realPinEv "$e1"
      (.ok sampleOrig) true = ⟨false, [], ⟨false, ["$old"]⟩⟩ :=
  ⟨rfl,
   C8_presync_dropped sampleCfg ⟨false, ["$old"]⟩ "!r3:server" realPinEv "$e1"
     (.ok sampleOrig) true rfl⟩

/-- C9: a reaction-shaped event with arbitrarily malformed nested metadata
    (absent content, absent relation structure, absent or empty target
    event id, absent relation kind, or absent emoji key) is dispatched
    without any send and with the state unchanged: every nested lookup is
    total with an empty default, and a missing emoji key compares unequal
    to the pin glyph. -/
theorem C9_malformed_safe (cfg : Config) (st : BotState) (room_id : String)
    (ev : EventSource) (fetch : FetchResult) (sendOk : Bool)
    (h : malformed ev = true) :
    (unknown cfg st room_id ev fetch sendOk).sends = [] ∧
    (unknown cfg st room_id ev fetch sendOk).state = st := by
  by_cases ht : ev.etype = "m.reaction"
  · by_cases hc : truthyId (getRelation ev).event_id ∧
        (getRelation ev).rel_type = some "m.annotation"
    · have hkn : (getRelation ev).key = none := by
        cases hcon : ev.content with
        | none =>
          exfalso
          have hg : getRelation ev = emptyRelation := by simp [getRelation, hcon]
          rw [hg] at hc
          simp [truthyId, emptyRelation] at hc
        | some c =>
          cases hrel : c.relates_to with
          | none =>
            exfalso
            have hg : getRelation ev = emptyRelation := by simp [getRelation, hcon, hrel]
            rw [hg] at hc
            simp [truthyId, emptyRelation] at hc
          | some r =>
            have hg : getRelation ev = r := by simp [getRelation, hcon, hrel]
            rw [hg]
            rw [hg] at hc
            obtain ⟨hc1, hc2⟩ := hc
            simp [malformed, hcon, hrel, hg] at h
            rcases h with ((h | h) | h) | h
            · rw [h] at hc1
              simp [truthyId] at hc1
            · rw [h] at hc1
              simp [truthyId] at hc1
            · rw [h] at hc2
              simp at hc2
            · exact h
      have hk : (getRelation ev).key ≠ some pinGlyph := by
        rw [hkn]
        simp
      have hr := reaction_nonpin cfg st room_id ev
        ((getRelation ev).event_id.getD "") fetch sendOk hk
      simpa [unknown, ht, hc] using hr
    · simp [unknown, ht, hc]
  · simp [unknown, ht]

/-- C9 witness: the hypothesis and the conclusion at a reaction-shaped
    event with no content dictionary. -/
theorem C9_malformed_safe_check :
    malformed malformedEv = true ∧
    ((unknown sampleCfg ⟨true, []⟩ "!r3:server" malformedEv
        (.ok sampleOrig) true).sends = [] ∧
     (unknown sampleCfg ⟨true, []⟩ "!r3:server" malformedEv
        (.ok sampleOrig) true).state = ⟨true, []⟩) :=
  ⟨by decide,
   C9_malformed_safe sampleCfg ⟨true, []⟩ "!r3:server" malformedEv
     (.ok sampleOrig) true (by decide)⟩

/-- C10: a reaction invocation mutates at most the dedup ledger, and only
    by the set-insertion of the single target event id (a no-op when
    already present, never a removal or replacement); the sync flag is
    never changed by the reaction handlers, and the sync handler sets the
    flag to true and touches nothing else. -/
theorem C10_frame (cfg : Config) (st : BotState) (room_id : String)
    (ev : EventSource) (id : String) (fetch : FetchResult) (sendOk : Bool) :
    ((reaction cfg st room_id ev id fetch sendOk).state.pinned = st.pinned ∨
     (reaction cfg st room_id ev id fetch sendOk).state.pinned = ledgerAdd id st.pinned) ∧
    (reaction cfg st room_id ev id fetch sendOk).state.synced = st.synced ∧
    ((unknown cfg st room_id ev fetch sendOk).state.pinned = st.pinned ∨
     (unknown cfg st room_id ev fetch sendOk).state.pinned =
       ledgerAdd ((getRelation ev).event_id.getD "") st.pinned) ∧
    (unknown cfg st room_id ev fetch sendOk).state.synced = st.synced ∧
    (sync st).synced = true ∧
    (sync st).pinned = st.pinned := by
  have hu : unknown cfg st room_id ev fetch sendOk = ⟨false, [], st⟩ ∨
      unknown cfg st room_id ev fetch sendOk =
        reaction cfg st room_id ev ((getRelation ev).event_id.getD "") fetch sendOk := by
    by_cases ht : ev.etype = "m.reaction"
    · by_cases hc : truthyId (getRelation ev).event_id ∧
          (getRelation ev).rel_type = some "m.annotation"
      · right
        simp [unknown, ht, hc]
      · left
        simp [unknown, ht, hc]
    · left
      simp [unknown, ht]
  have hrf := reaction_state_frame cfg st room_id ev id fetch sendOk
  have hrf2 := reaction_state_frame cfg st room_id ev
    ((getRelation ev).event_id.getD "") fetch sendOk
  refine ⟨hrf.1, hrf.2, ?_, ?_, rfl, rfl⟩
  · rcases hu with hu | hu
    · rw [hu]
      left
      rfl
    · rw [hu]
      exact hrf2.1
  · rcases hu with hu | hu
    · rw [hu]
    · rw [hu]
      exact hrf2.2

end Pinbot
